import Mathlib

/-!
Shallow embedding of the multi-provider identity resolution and
account-linking subsystem of the jacky-tracker server
(src/unnamed/part_002): the Google passport strategy and callback
route, the LINE login callback route, the prepare-link/link session
state, and the linked-accounts unlink route, together with the
Postgres tables they touch (users, user_providers, categories,
user_prompts) and their uniqueness / foreign-key constraints.
-/

namespace JackyTracker

/-- Provider kinds: the `provider` column is constrained by
`check (provider in ('google','line'))`. -/
inductive Provider
  | google
  | line
deriving DecidableEq, Repr

/-- A row of the `users` table: id (uuid modelled as Nat), unique email,
name, picture, the provider/provider_id of first sign-up
(`unique(provider, provider_id)` on users). -/
structure UserRow where
  id : Nat
  email : String
  name : String
  picture : Option String
  provider : Provider
  providerId : String
deriving DecidableEq, Repr

/-- A row of the `user_providers` table: owning user id (foreign key to
users, on delete cascade), provider kind, provider-assigned subject id
(`unique(provider, provider_id)`), and the profile data at link time. -/
structure LinkRow where
  userId : Nat
  provider : Provider
  providerId : String
  email : Option String
  name : String
  picture : Option String
deriving DecidableEq, Repr

/-- The database state visible to this subsystem: users, provider links,
categories `(user_id, name)` and user prompts `(user_id, content)`. -/
structure DB where
  users : List UserRow
  links : List LinkRow
  categories : List (Nat × String)
  prompts : List (Nat × String)
deriving DecidableEq, Repr

/-- Query `SELECT ... FROM user_providers WHERE provider = $1 AND provider_id = $2`. -/
def findLink (db : DB) (p : Provider) (pid : String) : Option LinkRow :=
  db.links.find? fun l => l.provider == p && l.providerId == pid

/-- Query `SELECT * FROM users WHERE id = $1`. -/
def findUserById (db : DB) (uid : Nat) : Option UserRow :=
  db.users.find? fun u => u.id == uid

/-- Query `SELECT * FROM users WHERE email = $1`. -/
def findUserByEmail (db : DB) (e : String) : Option UserRow :=
  db.users.find? fun u => u.email == e

/-- Query `SELECT up.*, u.* FROM user_providers up JOIN users u ON up.user_id = u.id
WHERE up.provider = $1 AND up.provider_id = $2`: zero rows when either the
link is absent or (vacuously, given the foreign key) its user row is. In the
result row the `u.*` columns overwrite the clashing `up.*` columns, so the
row is in effect the owning user's record. -/
def findLinkJoinUser (db : DB) (p : Provider) (pid : String) :
    Option (LinkRow × UserRow) :=
  match findLink db p pid with
  | some l => (findUserById db l.userId).map fun u => (l, u)
  | none => none

/-- Statement `INSERT INTO user_providers ...`: raises on the
`unique(provider, provider_id)` constraint or the `user_id` foreign key. -/
def insertLink (db : DB) (l : LinkRow) : Except Unit DB :=
  if db.links.any fun l2 => l2.provider == l.provider && l2.providerId == l.providerId then
    .error ()
  else if db.users.any fun u => u.id == l.userId then
    .ok { db with links := db.links ++ [l] }
  else
    .error ()

/-- Statement `INSERT INTO users ...`: raises on the unique email constraint or the
`unique(provider, provider_id)` constraint of the users table. -/
def insertUser (db : DB) (u : UserRow) : Except Unit DB :=
  if db.users.any fun u2 => u2.email == u.email then
    .error ()
  else if db.users.any fun u2 =>
      u2.provider == u.provider && u2.providerId == u.providerId then
    .error ()
  else
    .ok { db with users := db.users ++ [u] }

/-! ## Unlink route: `app.delete('/api/auth/linked-accounts/:provider')` -/

/-- Outcomes of the unlink handler. The route answers 400 "Invalid provider"
for a provider outside the enum, 400 "Cannot unlink the only remaining
account" when no other-provider link exists, and a success message after the
delete. -/
inductive UnlinkResult
  | invalidProvider
  | lastLinkRejected
  | success
deriving DecidableEq, Repr

/-- HTTP status of each unlink outcome as sent by the route. -/
def unlinkStatus : UnlinkResult → Nat
  | .invalidProvider => 400
  | .lastLinkRejected => 400
  | .success => 200

/-- Check `['google', 'line'].includes(provider)` on the path parameter. -/
def parseProvider : String → Option Provider
  | "google" => some .google
  | "line" => some .line
  | _ => none

/-- Query `SELECT COUNT(*) FROM user_providers WHERE user_id = $1 AND provider != $2`. -/
def countOtherLinks (db : DB) (uid : Nat) (p : Provider) : Nat :=
  (db.links.filter fun l => l.userId == uid && l.provider != p).length

/-- Statement `DELETE FROM user_providers WHERE user_id = $1 AND provider = $2`. -/
def deleteLinks (db : DB) (uid : Nat) (p : Provider) : DB :=
  { db with links := db.links.filter fun l => !(l.userId == uid && l.provider == p) }

/-- Number of provider links a user owns. -/
def countLinks (db : DB) (uid : Nat) : Nat :=
  (db.links.filter fun l => l.userId == uid).length

/-- The unlink route handler: validate the provider string, count the user's
links of *other* providers, reject if that count is zero, otherwise delete
all of the user's links of the requested provider. -/
def unlinkHandler (providerStr : String) (uid : Nat) (db : DB) :
    UnlinkResult × DB :=
  match parseProvider providerStr with
  | none => (.invalidProvider, db)
  | some p =>
    if countOtherLinks db uid p == 0 then
      (.lastLinkRejected, db)
    else
      (.success, deleteLinks db uid p)

/-! ## Default seeding for a new user (after the user transaction commits) -/

/-- The eleven default categories inserted by `addDefaultCategoriesForUser`. -/
def defaultCategories : List String :=
  ["Food & Dining", "Transportation", "Shopping", "Entertainment",
   "Healthcare", "Utilities", "Housing", "Loans", "Personal Care",
   "Travel", "Miscellaneous"]

/-- The default classification prompt inserted by `addDefaultPromptForUser`. -/
def defaultPromptContent : String :=
  "You are an expert expense categorization assistant. Classify this expense into the most appropriate category based on the description and amount. Consider the context and choose from the available categories: {categoriesList}. Be specific and accurate in your classification. Respond with ONLY a JSON object in this exact format: \x7b\"field\": \"Category Name\", \"is_new\": true/false\x7d"

/-- Statement `INSERT INTO categories (user_id, name) VALUES ($1, $2)`: raises on the
`unique(user_id, name)` constraint. -/
def insertCategory (db : DB) (uid : Nat) (name : String) : Except Unit DB :=
  if db.categories.any fun c => c.1 == uid && c.2 == name then .error ()
  else .ok { db with categories := db.categories ++ [(uid, name)] }

/-- Statement `INSERT INTO user_prompts (user_id, content)`: raises on the primary-key
constraint on `user_id`. -/
def insertPrompt (db : DB) (uid : Nat) : Except Unit DB :=
  if db.prompts.any fun pr => pr.1 == uid then .error ()
  else .ok { db with prompts := db.prompts ++ [(uid, defaultPromptContent)] }

/-- Helper `addDefaultCategoriesForUser`: one INSERT per category, in order; a
failure aborts the loop with the earlier inserts already committed (each
statement is its own implicit transaction). Returns the reached state and
whether all inserts succeeded. -/
def insertCategoriesFrom (uid : Nat) (cats : List String) (db : DB) :
    DB × Bool :=
  match cats with
  | [] => (db, true)
  | c :: rest =>
    match insertCategory db uid c with
    | .ok db1 => insertCategoriesFrom uid rest db1
    | .error _ => (db, false)

/-- The `BEGIN ... INSERT users ... INSERT user_providers ... COMMIT` block of
the new-user path: all-or-nothing (ROLLBACK on any failure). -/
def createUserWithLinkTx (db : DB) (u : UserRow) (l : LinkRow) :
    Except Unit DB :=
  match insertUser db u with
  | .error e => .error e
  | .ok db1 => insertLink db1 l

/-! ## Session state across the OAuth redirect round-trip

The server keeps the pending-link correlation directly on the
express-session object: `req.session.linkingUserId` (set by the
prepare-link routes) and `req.session.lineState` (the random `state`
echoed through the LINE authorization URL). -/

/-- The slice of `req.session` this subsystem reads and writes. -/
structure SessionState where
  lineState : Option String
  linkingUserId : Option Nat
deriving DecidableEq, Repr

/-- Routes `POST /api/auth/google/prepare-link` and `POST /api/auth/line/prepare-link`:
store the authenticated user's id on the session. -/
def prepareLink (sess : SessionState) (uid : Nat) : SessionState :=
  { sess with linkingUserId := some uid }

/-- Guard `if (!state || state !== req.session.lineState)`: the state check of the
LINE callback fails when the query parameter is missing or differs from the
session's stored value (including when none is stored). -/
def stateOk (q : Option String) (s : Option String) : Bool :=
  match q with
  | none => false
  | some qs => s == some qs

/-! ## LINE login callback: `app.get('/api/auth/line/callback')` -/

/-- Profile obtained from the LINE id token / profile API. -/
structure LineProfile where
  id : String
  displayName : String
  email : Option String
  pictureUrl : Option String
deriving DecidableEq, Repr

/-- Fallback `const email = profile.email || (profile.id + "@line.user")`. -/
def lineEmail (p : LineProfile) : String :=
  match p.email with
  | some e => e
  | none => p.id ++ "@line.user"

/-- The user_providers row the LINE callback builds for profile `lp` bound
to user `uid`. -/
def lineLinkRow (uid : Nat) (lp : LineProfile) : LinkRow :=
  { userId := uid, provider := .line, providerId := lp.id,
    email := some (lineEmail lp), name := lp.displayName,
    picture := lp.pictureUrl }

/-- The users row the LINE callback builds on the new-user path. -/
def lineUserRow (fid : Nat) (lp : LineProfile) : UserRow :=
  { id := fid, email := lineEmail lp, name := lp.displayName,
    picture := lp.pictureUrl, provider := .line, providerId := lp.id }

/-- Outcomes of the LINE callback route: the state-mismatch redirect
(`?error=line_oauth_failed` from the state check), the catch-all error
redirect (same query string, from a thrown error), the linking success
redirect (`/settings?linked=line`), and the login redirect
(`?token=<jwt>` carrying the given user id). -/
inductive LineResult
  | stateMismatch
  | errorRedirect
  | linked (uid : Nat)
  | token (uid : Nat)
deriving DecidableEq, Repr

/-- The LINE callback route, after a successful code-for-token exchange
produced `profile`. `freshId` stands for the uuid the database would mint
for a new user. Returns the response outcome, the saved session, and the
database state. -/
def lineCallback (qstate : Option String) (profile : LineProfile)
    (sess : SessionState) (db : DB) (freshId : Nat) :
    LineResult × SessionState × DB :=
  if !(stateOk qstate sess.lineState) then
    (.stateMismatch, sess, db)
  else
    match findLinkJoinUser db .line profile.id with
    | some (_, u) =>
      -- direct match: fall through to the login flow; only lineState is
      -- cleaned up, linkingUserId (if any) stays on the session
      (.token u.id, { sess with lineState := none }, db)
    | none =>
      match sess.linkingUserId with
      | some uid =>
        -- linking branch: linkingUserId is deleted before the insert and
        -- the route returns before the lineState cleanup
        let sess1 := { sess with linkingUserId := none }
        match insertLink db (lineLinkRow uid profile) with
        | .ok db1 => (.linked uid, sess1, db1)
        | .error _ => (.errorRedirect, sess1, db)
      | none =>
        -- new-user path: transactional user+link creation, then seeding
        -- outside the transaction, then lineState cleanup and login
        match createUserWithLinkTx db (lineUserRow freshId profile)
            (lineLinkRow freshId profile) with
        | .error _ => (.errorRedirect, sess, db)
        | .ok db1 =>
          match insertCategoriesFrom freshId defaultCategories db1 with
          | (db2, false) => (.errorRedirect, sess, db2)
          | (db2, true) =>
            match insertPrompt db2 freshId with
            | .error _ => (.errorRedirect, sess, db2)
            | .ok db3 => (.token freshId, { sess with lineState := none }, db3)

/-! ## Google passport strategy and callback route -/

/-- Profile delivered by the Google strategy; `profile.emails[0].value` is
read unconditionally, so the email is a required field here. -/
structure GoogleProfile where
  id : String
  displayName : String
  email : String
  photo : Option String
deriving DecidableEq, Repr

/-- The user_providers row the Google verify callback builds for profile
`gp` bound to user `uid`. -/
def googleLinkRow (uid : Nat) (gp : GoogleProfile) : LinkRow :=
  { userId := uid, provider := .google, providerId := gp.id,
    email := some gp.email, name := gp.displayName, picture := gp.photo }

/-- The users row the Google verify callback builds on the new-user path. -/
def googleUserRow (fid : Nat) (gp : GoogleProfile) : UserRow :=
  { id := fid, email := gp.email, name := gp.displayName,
    picture := gp.photo, provider := .google, providerId := gp.id }

/-- The user_providers row the Google callback route builds in a linking
flow from the columns of `req.user` (the row the verify callback returned). -/
def googleRelinkRow (uid : Nat) (u : UserRow) : LinkRow :=
  { userId := uid, provider := .google, providerId := u.providerId,
    email := some u.email, name := u.name, picture := u.picture }

/-- The GoogleStrategy verify callback: direct match on
`(google, profile.id)` over the join, else email-fallback link to an
existing user, else transactional new-user creation followed by seeding.
Returns the user handed to `done` (`none` when an error was thrown and the
route answers with the failure redirect) together with the database state.
On the direct-match path the join row's clashing columns are overwritten by
`u.*`, so the value behaves as the owning user's record. -/
def googleVerify (profile : GoogleProfile) (db : DB) (freshId : Nat) :
    Option UserRow × DB :=
  match findLinkJoinUser db .google profile.id with
  | some (_, u) => (some u, db)
  | none =>
    match findUserByEmail db profile.email with
    | some u =>
      match insertLink db (googleLinkRow u.id profile) with
      | .ok db1 => (some u, db1)
      | .error _ => (none, db)
    | none =>
      match createUserWithLinkTx db (googleUserRow freshId profile)
          (googleLinkRow freshId profile) with
      | .error _ => (none, db)
      | .ok db1 =>
        match insertCategoriesFrom freshId defaultCategories db1 with
        | (db2, false) => (none, db2)
        | (db2, true) =>
          match insertPrompt db2 freshId with
          | .error _ => (none, db2)
          | .ok db3 => (some (googleUserRow freshId profile), db3)

/-- Outcomes of the Google callback route: the passport failure redirect
(`/login?error=google`) when the verify callback errored, the catch-all
error redirect of the route handler (same destination), the linking success
redirect (`/settings?linked=google`), and the login redirect
(`?token=<jwt>`). -/
inductive GoogleResult
  | authFail
  | errorRedirect
  | linked (uid : Nat)
  | token (uid : Nat)
deriving DecidableEq, Repr

/-- Route `GET /api/auth/google/callback`: `passport.authenticate` runs the
verify callback; on success the handler checks `req.session.linkingUserId`
(deleting it before the insert) and inserts a link built from `req.user`'s
columns, or else issues the login token. The strategy itself never consults
the session. -/
def googleCallback (profile : GoogleProfile) (sess : SessionState) (db : DB)
    (freshId : Nat) : GoogleResult × SessionState × DB :=
  match googleVerify profile db freshId with
  | (none, db1) => (.authFail, sess, db1)
  | (some user, db1) =>
    match sess.linkingUserId with
    | some uid =>
      let sess1 := { sess with linkingUserId := none }
      match insertLink db1 (googleRelinkRow uid user) with
      | .ok db2 => (.linked uid, sess1, db2)
      | .error _ => (.errorRedirect, sess1, db1)
    | none => (.token user.id, sess, db1)

/-! ## Session lifetime

The express-session cookie is configured with
`maxAge: 30 * 24 * 60 * 60 * 1000` (30 days); connect-pg-simple discards a
stored session once that expiry has passed, so a callback arriving later
sees an empty session. There is no shorter expiry for the linking state. -/

/-- Session cookie `maxAge` in milliseconds: 30 days. -/
def sessionMaxAgeMs : Nat := 30 * 24 * 60 * 60 * 1000

/-- Whether a session created at `createdAt` is expired at `now`
(milliseconds): true once the cookie `maxAge` has elapsed. -/
def sessionExpired (createdAt now : Nat) : Bool :=
  createdAt + sessionMaxAgeMs ≤ now

/-- Loading a session at time `now`: an expired entry is treated as absent
(the request sees a fresh, empty session) even if the row has not been
physically pruned yet. -/
def loadSession (createdAt now : Nat) (sess : SessionState) : SessionState :=
  if sessionExpired createdAt now then
    { lineState := none, linkingUserId := none }
  else sess

/-- The LINE callback as observed at wall-clock time `now` for a session
created at `createdAt`: the stored session is loaded (subject to expiry)
and the callback runs on the result. -/
def lineCallbackAt (createdAt now : Nat) (qstate : Option String)
    (profile : LineProfile) (sess : SessionState) (db : DB) (freshId : Nat) :
    LineResult × SessionState × DB :=
  lineCallback qstate profile (loadSession createdAt now sess) db freshId

/-! ## Interruption view of the LINE new-user path

For the atomicity analysis the new-user path is replayed as its sequence of
atomic units: the `BEGIN..COMMIT` block (user row + first link) is one unit;
each later seeding INSERT runs as its own implicit transaction. Interrupting
after `k` units shows exactly the states a crash can leave behind. -/

/-- The seeding statements that follow the commit, in source order: one
INSERT per default category, then the default-prompt INSERT. -/
def seedSteps (uid : Nat) : List (DB → Except Unit DB) :=
  (defaultCategories.map fun c => fun db => insertCategory db uid c)
  ++ [fun db => insertPrompt db uid]

/-- Run the first `k` statements of a list, stopping early on a raised
error (as the surrounding try/catch would). -/
def applyPrefix (fs : List (DB → Except Unit DB)) (k : Nat) (db : DB) : DB :=
  match fs, k with
  | _, 0 => db
  | [], _ + 1 => db
  | f :: rest, k + 1 =>
    match f db with
    | .error _ => db
    | .ok db1 => applyPrefix rest k db1

/-- Database state observable when the LINE new-user path is interrupted
after `k` atomic units: `k = 0` means the interruption fell anywhere inside
the `BEGIN..COMMIT` block (rolled back, nothing persists); `k ≥ 1` means the
block committed and the first `k - 1` seeding statements ran. -/
def lineNewUserInterrupted (profile : LineProfile) (db : DB) (freshId : Nat)
    (k : Nat) : DB :=
  match k with
  | 0 => db
  | k + 1 =>
    match createUserWithLinkTx db (lineUserRow freshId profile)
        (lineLinkRow freshId profile) with
    | .error _ => db
    | .ok db1 => applyPrefix (seedSteps freshId) k db1

/-! ## Concrete fixtures for the scenario theorems -/

/-- User U2, created via LINE with email b@x.com. -/
def userU2 : UserRow :=
  { id := 2, email := "b@x.com", name := "U2", picture := none,
    provider := .line, providerId := "lb" }

/-- U2's LINE link. -/
def linkU2line : LinkRow :=
  { userId := 2, provider := .line, providerId := "lb",
    email := some "b@x.com", name := "U2", picture := none }

/-- User U3, created via Google. -/
def userU3 : UserRow :=
  { id := 3, email := "u3@x.com", name := "U3", picture := none,
    provider := .google, providerId := "g3" }

/-- U3's Google link. -/
def linkU3google : LinkRow :=
  { userId := 3, provider := .google, providerId := "g3",
    email := some "u3@x.com", name := "U3", picture := none }

/-- User U4, created via LINE with subject id l1. -/
def userU4 : UserRow :=
  { id := 4, email := "u4@x.com", name := "U4", picture := none,
    provider := .line, providerId := "l1" }

/-- U4's LINE link (subject id l1). -/
def linkU4line : LinkRow :=
  { userId := 4, provider := .line, providerId := "l1",
    email := some "u4@x.com", name := "U4", picture := none }

/-- Database with U3 (google) and U4 (line, subject l1). -/
def dbHijack : DB :=
  { users := [userU3, userU4], links := [linkU3google, linkU4line],
    categories := [], prompts := [] }

/-- Session in a linking flow for U3, with state token "st". -/
def sessPending : SessionState :=
  { lineState := some "st", linkingUserId := some 3 }

/-- Session with state token "st" and no pending link. -/
def sessNoPending : SessionState :=
  { lineState := some "st", linkingUserId := none }

/-- LINE profile carrying U4's already-linked subject id l1. -/
def profileLineL1 : LineProfile :=
  { id := "l1", displayName := "Evil", email := none, pictureUrl := none }

/-- LINE profile with a fresh subject id l9. -/
def profileLineL9 : LineProfile :=
  { id := "l9", displayName := "N", email := none, pictureUrl := none }

/-- Database with only U3 and their single Google link. -/
def dbSingleGoogle : DB :=
  { users := [userU3], links := [linkU3google], categories := [], prompts := [] }

/-- The empty database. -/
def dbEmpty : DB :=
  { users := [], links := [], categories := [], prompts := [] }

/-- LINE profile with fresh subject id lz and no email. -/
def profileLineLZ : LineProfile :=
  { id := "lz", displayName := "Z", email := none, pictureUrl := none }

/-- Database with only U2 and their LINE link. -/
def dbEmailU2 : DB :=
  { users := [userU2], links := [linkU2line], categories := [], prompts := [] }

/-- LINE profile with fresh subject id l7 but U2's email. -/
def profileLineEmailB : LineProfile :=
  { id := "l7", displayName := "B2", email := some "b@x.com", pictureUrl := none }

/-- Google profile with fresh subject id g2 and U2's email. -/
def googleProfileG2 : GoogleProfile :=
  { id := "g2", displayName := "B2", email := "b@x.com", photo := none }

/-- Google profile carrying U3's already-linked subject id g3. -/
def googleProfileG3 : GoogleProfile :=
  { id := "g3", displayName := "U3", email := "u3@x.com", photo := none }

/-- A second LINE link already owned by U3 (subject id lA). -/
def linkU3lineA : LinkRow :=
  { userId := 3, provider := .line, providerId := "lA",
    email := none, name := "U3", picture := none }

/-- Database where U3 owns a Google link and a LINE link (subject lA). -/
def dbRelink : DB :=
  { users := [userU3], links := [linkU3google, linkU3lineA],
    categories := [], prompts := [] }

/-- LINE profile of the same kind U3 already has, different subject id lB. -/
def profileLineLB : LineProfile :=
  { id := "lB", displayName := "U3b", email := none, pictureUrl := none }

/-- User U4 as created via Google with subject id g1. -/
def userU4g : UserRow :=
  { id := 4, email := "u4@x.com", name := "U4", picture := none,
    provider := .google, providerId := "g1" }

/-- U4's Google link (subject id g1). -/
def linkU4google : LinkRow :=
  { userId := 4, provider := .google, providerId := "g1",
    email := some "u4@x.com", name := "U4", picture := none }

/-- Database with U3 (google g3) and U4 (google g1). -/
def dbHijackGoogle : DB :=
  { users := [userU3, userU4g], links := [linkU3google, linkU4google],
    categories := [], prompts := [] }

/-- Google profile carrying U4's already-linked subject id g1. -/
def googleProfileG1 : GoogleProfile :=
  { id := "g1", displayName := "Evil", email := "e@x.com", photo := none }

/-- User U5, created via Google with subject id g1. -/
def userU5g : UserRow :=
  { id := 5, email := "u5@x.com", name := "U5", picture := none,
    provider := .google, providerId := "g1" }

/-- U5's Google link (subject id g1). -/
def linkU5google : LinkRow :=
  { userId := 5, provider := .google, providerId := "g1",
    email := some "u5@x.com", name := "U5", picture := none }

/-- Database holding U3 (google g3), U4 (line l1) and U5 (google g1). -/
def dbBoth : DB :=
  { users := [userU3, userU4, userU5g],
    links := [linkU3google, linkU4line, linkU5google],
    categories := [], prompts := [] }

/-- User U6, who signed up via LINE (subject l6) and later acquired a
Google link through the email fallback, so their users.provider_id stays
the LINE subject l6. -/
def userU6 : UserRow :=
  { id := 6, email := "u6@x.com", name := "U6", picture := none,
    provider := .line, providerId := "l6" }

/-- U6's LINE link (the sign-up identity). -/
def linkU6line : LinkRow :=
  { userId := 6, provider := .line, providerId := "l6",
    email := some "u6@x.com", name := "U6", picture := none }

/-- U6's Google link (subject g1), acquired via the email fallback. -/
def linkU6google : LinkRow :=
  { userId := 6, provider := .google, providerId := "g1",
    email := some "u6@x.com", name := "U6", picture := none }

/-- Database holding U3 (google g3), U4 (line l1) and U6 (line l6 plus an
email-fallback google g1 link). -/
def dbMerged : DB :=
  { users := [userU3, userU4, userU6],
    links := [linkU3google, linkU4line, linkU6line, linkU6google],
    categories := [], prompts := [] }

/-! ## Helper lemmas -/

/-- Deleting a user's links of one provider leaves exactly their links of
the other providers. -/
theorem countLinks_deleteLinks (db : DB) (uid : Nat) (p : Provider) :
    countLinks (deleteLinks db uid p) uid = countOtherLinks db uid p := by
  unfold countLinks deleteLinks countOtherLinks
  simp only [List.filter_filter]
  congr 1
  apply List.filter_congr
  intro x _
  cases hb : (x.userId == uid) <;> cases hc : (x.provider == p) <;>
    simp only [hb, hc, bne] <;> rfl

/-- Unpacking a successful link lookup. -/
theorem findLink_some_spec (db : DB) (p : Provider) (pid : String)
    (l : LinkRow) (h : findLink db p pid = some l) :
    l ∈ db.links ∧ l.provider = p ∧ l.providerId = pid := by
  unfold findLink at h
  have hmem := List.mem_of_find?_eq_some h
  have hpred := List.find?_some h
  simp only [Bool.and_eq_true, beq_iff_eq] at hpred
  exact ⟨hmem, hpred.1, hpred.2⟩

/-- Unpacking a failed link lookup. -/
theorem findLink_none_spec (db : DB) (p : Provider) (pid : String)
    (h : findLink db p pid = none) :
    ∀ l ∈ db.links, ¬(l.provider = p ∧ l.providerId = pid) := by
  unfold findLink at h
  intro l hl hcontra
  have := List.find?_eq_none.mp h l hl
  simp only [Bool.and_eq_true, beq_iff_eq] at this
  exact this ⟨hcontra.1, hcontra.2⟩

/-- Unpacking a successful user-by-email lookup. -/
theorem findUserByEmail_some_spec (db : DB) (e : String) (u : UserRow)
    (h : findUserByEmail db e = some u) :
    u ∈ db.users ∧ u.email = e := by
  unfold findUserByEmail at h
  have hmem := List.mem_of_find?_eq_some h
  have hpred := List.find?_some h
  simp only [beq_iff_eq] at hpred
  exact ⟨hmem, hpred⟩

/-- A link insert raises the uniqueness constraint when a row with the same
(provider, providerId) already exists. -/
theorem insertLink_error_of_mem (db : DB) (l l2 : LinkRow)
    (hmem : l2 ∈ db.links) (hp : l2.provider = l.provider)
    (hpid : l2.providerId = l.providerId) :
    insertLink db l = .error () := by
  unfold insertLink
  have hany : (db.links.any fun x =>
      x.provider == l.provider && x.providerId == l.providerId) = true := by
    apply List.any_eq_true.mpr
    exact ⟨l2, hmem, by simp [hp, hpid]⟩
  rw [hany]
  rfl

/-- A link insert succeeds when the (provider, providerId) pair is fresh and
the owning user exists. -/
theorem insertLink_ok (db : DB) (l : LinkRow)
    (hnodup : ∀ l2 ∈ db.links,
      ¬(l2.provider = l.provider ∧ l2.providerId = l.providerId))
    (hfk : ∃ u ∈ db.users, u.id = l.userId) :
    insertLink db l = .ok { db with links := db.links ++ [l] } := by
  unfold insertLink
  have h1 : (db.links.any fun x =>
      x.provider == l.provider && x.providerId == l.providerId) = false := by
    rw [Bool.eq_false_iff]
    intro hany
    obtain ⟨x, hx, hpred⟩ := List.any_eq_true.mp hany
    simp only [Bool.and_eq_true, beq_iff_eq] at hpred
    exact hnodup x hx hpred
  have h2 : (db.users.any fun u => u.id == l.userId) = true := by
    apply List.any_eq_true.mpr
    obtain ⟨u, hu, hid⟩ := hfk
    exact ⟨u, hu, by simp [hid]⟩
  rw [h1, h2]
  rfl

/-- A user insert raises the unique-email constraint when a user with that
email already exists. -/
theorem insertUser_error_of_email (db : DB) (u u2 : UserRow)
    (hmem : u2 ∈ db.users) (he : u2.email = u.email) :
    insertUser db u = .error () := by
  unfold insertUser
  have hany : (db.users.any fun x => x.email == u.email) = true := by
    apply List.any_eq_true.mpr
    exact ⟨u2, hmem, by simp [he]⟩
  rw [hany]
  rfl

/-- A successful user insert appends the row. -/
theorem insertUser_ok_shape (db : DB) (u : UserRow) (db1 : DB)
    (h : insertUser db u = .ok db1) :
    db1 = { db with users := db.users ++ [u] } := by
  unfold insertUser at h
  split at h
  · simp at h
  · split at h
    · simp at h
    · injection h with h2
      exact h2.symm

/-- A successful link insert appends the row. -/
theorem insertLink_ok_shape (db : DB) (l : LinkRow) (db1 : DB)
    (h : insertLink db l = .ok db1) :
    db1 = { db with links := db.links ++ [l] } := by
  unfold insertLink at h
  split at h
  · simp at h
  · split at h
    · injection h with h2
      exact h2.symm
    · simp at h

/-- The new-user transaction aborts wholesale when the user insert fails. -/
theorem createTx_error_of_user (db : DB) (u : UserRow) (l : LinkRow)
    (h : insertUser db u = .error ()) :
    createUserWithLinkTx db u l = .error () := by
  unfold createUserWithLinkTx
  rw [h]

/-- Shape of a committed new-user transaction: exactly the user row and the
link row are appended; categories and prompts are untouched. -/
theorem createTx_ok_shape (db : DB) (u : UserRow) (l : LinkRow) (db1 : DB)
    (h : createUserWithLinkTx db u l = .ok db1) :
    db1.users = db.users ++ [u] ∧ db1.links = db.links ++ [l] ∧
    db1.categories = db.categories ∧ db1.prompts = db.prompts := by
  unfold createUserWithLinkTx at h
  cases hu : insertUser db u with
  | error e =>
    rw [hu] at h
    simp at h
  | ok db0 =>
    rw [hu] at h
    have h0 := insertUser_ok_shape db u db0 hu
    have h1 := insertLink_ok_shape db0 l db1 h
    subst h0
    rw [h1]
    exact ⟨rfl, rfl, rfl, rfl⟩

/-- When the state check fails, the LINE callback redirects with the OAuth
error and touches nothing. -/
theorem line_stateMismatch (qs : Option String) (lp : LineProfile)
    (sess : SessionState) (db : DB) (fid : Nat)
    (h : stateOk qs sess.lineState = false) :
    lineCallback qs lp sess db fid = (.stateMismatch, sess, db) := by
  unfold lineCallback
  rw [h]
  rfl

/-- The direct-match branch of the LINE callback: with a valid state, a link
for (line, profile.id) whose owner exists resolves to a login as the owner,
clearing only `lineState`, with the database untouched — whether or not a
linking flow is pending. -/
theorem line_direct_match (qs : Option String) (lp : LineProfile)
    (sess : SessionState) (db : DB) (fid : Nat) (l : LinkRow) (u : UserRow)
    (hst : stateOk qs sess.lineState = true)
    (hl : findLink db .line lp.id = some l)
    (hu : findUserById db l.userId = some u) :
    lineCallback qs lp sess db fid =
      (.token u.id, { sess with lineState := none }, db) := by
  unfold lineCallback findLinkJoinUser
  rw [hst]
  simp [hl, hu]

/-- The linking branch of the LINE callback: with a valid state, no direct
match and a pending `linkingUserId`, the route deletes the pending id and
attempts the link insert, keeping `lineState` either way. -/
theorem line_linking_branch (qs : Option String) (lp : LineProfile)
    (sess : SessionState) (db : DB) (fid uid : Nat)
    (hst : stateOk qs sess.lineState = true)
    (hnm : findLink db .line lp.id = none)
    (hpend : sess.linkingUserId = some uid) :
    (∀ db1, insertLink db (lineLinkRow uid lp) = .ok db1 →
      lineCallback qs lp sess db fid =
        (.linked uid, { sess with linkingUserId := none }, db1)) ∧
    (insertLink db (lineLinkRow uid lp) = .error () →
      lineCallback qs lp sess db fid =
        (.errorRedirect, { sess with linkingUserId := none }, db)) := by
  constructor
  · intro db1 hok
    unfold lineCallback findLinkJoinUser
    rw [hst]
    simp only [hnm, hpend]
    simp [hok]
  · intro herr
    unfold lineCallback findLinkJoinUser
    rw [hst]
    simp only [hnm, hpend]
    simp [herr]

/-- The new-user branch of the LINE callback: with a valid state, no direct
match, no pending link and a failing user insert, the whole transaction
aborts and the route redirects with the OAuth error, leaving everything
unchanged. -/
theorem line_new_user_abort (qs : Option String) (lp : LineProfile)
    (sess : SessionState) (db : DB) (fid : Nat)
    (hst : stateOk qs sess.lineState = true)
    (hnm : findLink db .line lp.id = none)
    (hnp : sess.linkingUserId = none)
    (hins : insertUser db (lineUserRow fid lp) = .error ()) :
    lineCallback qs lp sess db fid = (.errorRedirect, sess, db) := by
  unfold lineCallback findLinkJoinUser
  rw [hst]
  have htx := createTx_error_of_user db (lineUserRow fid lp)
    (lineLinkRow fid lp) hins
  simp only [hnm, hnp]
  simp [htx]

/-- The direct-match branch of the Google verify callback: an existing link
for (google, profile.id) whose owner exists resolves to the owner with the
database untouched, before any email lookup. -/
theorem google_direct_match (db : DB) (gp : GoogleProfile) (fid : Nat)
    (gl : LinkRow) (gu : UserRow)
    (hgl : findLink db .google gp.id = some gl)
    (hgu : findUserById db gl.userId = some gu) :
    googleVerify gp db fid = (some gu, db) := by
  unfold googleVerify findLinkJoinUser
  simp [hgl, hgu]

/-! ## Claim C2: minimum-link invariant of the unlink route -/

/-- C2 (confirmed): the unlink route never reduces a user's ProviderLink
count to zero, and on a user whose links are all of the requested kind it
answers `LastLinkRejected` with HTTP 400 and leaves storage unchanged. -/
theorem unlink_min_link_invariant (s : String) (p : Provider) (uid : Nat)
    (db : DB) (hp : parseProvider s = some p)
    (hpos : 0 < countLinks db uid) :
    0 < countLinks (unlinkHandler s uid db).2 uid ∧
    ((∀ l ∈ db.links, l.userId = uid → l.provider = p) →
      (unlinkHandler s uid db).1 = .lastLinkRejected ∧
      unlinkStatus (unlinkHandler s uid db).1 = 400 ∧
      (unlinkHandler s uid db).2 = db) := by
  by_cases hco : countOtherLinks db uid p = 0
  · have heq : unlinkHandler s uid db = (.lastLinkRejected, db) := by
      unfold unlinkHandler
      rw [hp]
      simp [hco]
    rw [heq]
    exact ⟨hpos, fun _ => ⟨rfl, rfl, rfl⟩⟩
  · have heq : unlinkHandler s uid db = (.success, deleteLinks db uid p) := by
      unfold unlinkHandler
      rw [hp]
      simp [hco]
    rw [heq]
    constructor
    · show 0 < countLinks (deleteLinks db uid p) uid
      rw [countLinks_deleteLinks]
      exact Nat.pos_of_ne_zero hco
    · intro hall
      exfalso
      apply hco
      unfold countOtherLinks
      rw [List.length_eq_zero, List.filter_eq_nil_iff]
      intro l hl
      by_cases hu : l.userId = uid
      · have hpl := hall l hl hu
        simp [hu, hpl]
      · simp [hu]

/-- Witness for C2: user 3 owns exactly one (Google) link; unlinking
"google" is rejected with 400 and storage is unchanged. -/
theorem unlink_min_link_invariant_witness :
    parseProvider "google" = some .google ∧
    0 < countLinks dbSingleGoogle 3 ∧
    (0 < countLinks (unlinkHandler "google" 3 dbSingleGoogle).2 3 ∧
     ((∀ l ∈ dbSingleGoogle.links, l.userId = 3 → l.provider = .google) →
       (unlinkHandler "google" 3 dbSingleGoogle).1 = .lastLinkRejected ∧
       unlinkStatus (unlinkHandler "google" 3 dbSingleGoogle).1 = 400 ∧
       (unlinkHandler "google" 3 dbSingleGoogle).2 = dbSingleGoogle)) :=
  ⟨by decide, by decide,
   unlink_min_link_invariant "google" .google 3 dbSingleGoogle
     (by decide) (by decide)⟩

/-! ## Claim C9: unlink of a provider the user does not have -/

/-- C9 counterexample: user 3 owns one Google link and no LINE link, yet
`DELETE /api/auth/linked-accounts/line` answers the success message with
HTTP 200 and deletes nothing — there is no NotFound outcome. -/
theorem unlink_absent_success_counterexample :
    (unlinkHandler "line" 3 dbSingleGoogle).1 = .success ∧
    unlinkStatus (unlinkHandler "line" 3 dbSingleGoogle).1 = 200 ∧
    (unlinkHandler "line" 3 dbSingleGoogle).2 = dbSingleGoogle := by decide

/-- C9 amended: when the user owns at least one link but none of the
requested kind, the unlink route reports success (HTTP 200) and leaves
storage unchanged; the route has no NotFound outcome and runs the count
and the delete as two separate statements. -/
theorem unlink_absent_provider_amended (s : String) (p : Provider)
    (uid : Nat) (db : DB) (hp : parseProvider s = some p)
    (hother : ∃ l ∈ db.links, l.userId = uid ∧ l.provider ≠ p)
    (hnone : ∀ l ∈ db.links, l.userId = uid → l.provider ≠ p) :
    (unlinkHandler s uid db).1 = .success ∧
    unlinkStatus (unlinkHandler s uid db).1 = 200 ∧
    (unlinkHandler s uid db).2 = db := by
  have hco : countOtherLinks db uid p ≠ 0 := by
    unfold countOtherLinks
    obtain ⟨l, hl, hu, hpne⟩ := hother
    intro hlen
    rw [List.length_eq_zero, List.filter_eq_nil_iff] at hlen
    have := hlen l hl
    simp [hu, hpne] at this
  have heq : unlinkHandler s uid db = (.success, deleteLinks db uid p) := by
    unfold unlinkHandler
    rw [hp]
    simp [hco]
  have hfil : (db.links.filter fun l => !(l.userId == uid && l.provider == p))
      = db.links := by
    apply List.filter_eq_self.mpr
    intro l hl
    by_cases hu : l.userId = uid
    · have := hnone l hl hu
      simp [hu, this]
    · simp [hu]
  have hdel : deleteLinks db uid p = db := by
    unfold deleteLinks
    rw [hfil]
  rw [heq, hdel]
  exact ⟨rfl, rfl, rfl⟩

/-- Witness for C9's amended theorem at the counterexample input. -/
theorem unlink_absent_provider_amended_witness :
    parseProvider "line" = some .line ∧
    (∃ l ∈ dbSingleGoogle.links, l.userId = 3 ∧ l.provider ≠ .line) ∧
    ((unlinkHandler "line" 3 dbSingleGoogle).1 = .success ∧
     unlinkStatus (unlinkHandler "line" 3 dbSingleGoogle).1 = 200 ∧
     (unlinkHandler "line" 3 dbSingleGoogle).2 = dbSingleGoogle) :=
  ⟨by decide, by decide,
   unlink_absent_provider_amended "line" .line 3 dbSingleGoogle
     (by decide) (by decide) (by decide)⟩

/-! ## Claim C10: invalid provider string on the unlink route -/

/-- C10 (confirmed): a provider path parameter outside the enum is answered
400 "Invalid provider" and the database is untouched — for every database
state, so no storage query or mutation is involved in the decision. -/
theorem unlink_invalid_provider_rejected (s : String) (uid : Nat) (db : DB)
    (h : parseProvider s = none) :
    (unlinkHandler s uid db).1 = .invalidProvider ∧
    unlinkStatus (unlinkHandler s uid db).1 = 400 ∧
    (unlinkHandler s uid db).2 = db := by
  unfold unlinkHandler
  rw [h]
  exact ⟨rfl, rfl, rfl⟩

/-- Witness for C10 with the provider string "facebook". -/
theorem unlink_invalid_provider_rejected_witness :
    parseProvider "facebook" = none ∧
    ((unlinkHandler "facebook" 3 dbSingleGoogle).1 = .invalidProvider ∧
     unlinkStatus (unlinkHandler "facebook" 3 dbSingleGoogle).1 = 400 ∧
     (unlinkHandler "facebook" 3 dbSingleGoogle).2 = dbSingleGoogle) :=
  ⟨by decide,
   unlink_invalid_provider_rejected "facebook" 3 dbSingleGoogle (by decide)⟩

/-! ## Claim C1: provider identity already linked to a different user -/

/-- C1 counterexample: ProviderLink(line, l1) belongs to U4 (id 4) and U3
(id 3) is in the linking flow, yet the LINE callback takes the direct-match
path and answers with a login token for U4 — a success outcome, not a
`ProviderAlreadyLinkedElsewhere` error (no such error exists in the route's
outcomes) — and even leaves U3's pending `linkingUserId` on the session. -/
theorem hijack_no_error_counterexample :
    lineCallback (some "st") profileLineL1 sessPending dbHijack 99 =
      (.token 4, { lineState := none, linkingUserId := some 3 }, dbHijack) ∧
    (lineCallback (some "st") profileLineL1 sessPending dbHijack 99).1 ≠
      .errorRedirect ∧
    (lineCallback (some "st") profileLineL1 sessPending dbHijack 99).1 ≠
      .stateMismatch := by decide

/-- C1 amended: when the (providerKind, subjectId) identity is already
linked to another user, a linking-flow callback never reaches its linking
branch and neither route produces a `ProviderAlreadyLinkedElsewhere`
error. The LINE route takes the direct match and logs the caller in as the
link's owner, storage untouched and the pending `linkingUserId` left
behind. The Google route returns the owner from the strategy and then the
handler inserts (pendingUser, google, owner-row's users.provider_id):
when that (google, provider_id) pair is already linked — in particular
when the owner signed up with the very Google identity being hijacked —
the insert hits the uniqueness constraint and the route answers the
generic error redirect with all ProviderLinks unchanged; but when it is
not linked (e.g. the owner acquired the Google link via the email
fallback after signing up via LINE, so their users.provider_id is their
LINE subject id), the insert succeeds, attaching a bogus
(google, owner's original provider id) link to the pending user and
redirecting as a linking success. -/
theorem hijack_direct_match_amended
    (db : DB) (sess : SessionState) (qs : Option String)
    (lp : LineProfile) (gp : GoogleProfile) (fid fid2 uid3 : Nat)
    (ll glk : LinkRow) (lu gu : UserRow)
    (hpend : sess.linkingUserId = some uid3)
    (hst : stateOk qs sess.lineState = true)
    (hll : findLink db .line lp.id = some ll)
    (hlu : findUserById db ll.userId = some lu)
    (hgl : findLink db .google gp.id = some glk)
    (hgu : findUserById db glk.userId = some gu) :
    lineCallback qs lp sess db fid =
      (.token lu.id, { lineState := none, linkingUserId := some uid3 }, db) ∧
    ((∃ l2 ∈ db.links, l2.provider = .google ∧ l2.providerId = gu.providerId) →
      googleCallback gp sess db fid2 =
        (.errorRedirect, { sess with linkingUserId := none }, db)) ∧
    (findLink db .google gu.providerId = none →
      (∃ u ∈ db.users, u.id = uid3) →
      googleCallback gp sess db fid2 =
        (.linked uid3, { sess with linkingUserId := none },
         { db with links := db.links ++ [googleRelinkRow uid3 gu] })) := by
  have hver := google_direct_match db gp fid2 glk gu hgl hgu
  refine ⟨?_, ?_, ?_⟩
  · rw [line_direct_match qs lp sess db fid ll lu hst hll hlu, hpend]
  · rintro ⟨l2, hl2, hp2, hpid2⟩
    have herr : insertLink db (googleRelinkRow uid3 gu) = .error () := by
      apply insertLink_error_of_mem db _ l2 hl2
      · simpa [googleRelinkRow] using hp2
      · simpa [googleRelinkRow] using hpid2
    unfold googleCallback
    rw [hver]
    simp only [hpend]
    simp [herr]
  · intro hnone hfk
    have hok : insertLink db (googleRelinkRow uid3 gu) =
        .ok { db with links := db.links ++ [googleRelinkRow uid3 gu] } := by
      apply insertLink_ok
      · intro l2 hl2 hcontra
        exact findLink_none_spec db .google gu.providerId hnone l2 hl2
          ⟨by simpa [googleRelinkRow] using hcontra.1,
           by simpa [googleRelinkRow] using hcontra.2⟩
      · obtain ⟨u, hu, hid⟩ := hfk
        exact ⟨u, hu, by simpa [googleRelinkRow] using hid⟩
    unfold googleCallback
    rw [hver]
    simp only [hpend]
    simp [hok]

/-- Witness for C1's amended theorem, exercising both Google outcomes:
in `dbBoth` the owner U5 signed up with the hijacked Google identity g1,
so the insert collides and the route error-redirects with storage
unchanged; in `dbMerged` the owner U6 signed up via LINE and got the g1
link by email fallback, so the insert succeeds and attaches the bogus
(google, l6) link to pending user 3. -/
theorem hijack_direct_match_amended_witness :
    sessPending.linkingUserId = some 3 ∧
    findLink dbBoth .google googleProfileG1.id = some linkU5google ∧
    (∃ l2 ∈ dbBoth.links,
      l2.provider = .google ∧ l2.providerId = userU5g.providerId) ∧
    googleCallback googleProfileG1 sessPending dbBoth 99 =
      (.errorRedirect, { sessPending with linkingUserId := none }, dbBoth) ∧
    findLink dbMerged .google googleProfileG1.id = some linkU6google ∧
    findLink dbMerged .google userU6.providerId = none ∧
    googleCallback googleProfileG1 sessPending dbMerged 99 =
      (.linked 3, { sessPending with linkingUserId := none },
       { dbMerged with links := dbMerged.links ++ [googleRelinkRow 3 userU6] }) ∧
    lineCallback (some "st") profileLineL1 sessPending dbBoth 99 =
      (.token userU4.id,
       { lineState := none, linkingUserId := some 3 }, dbBoth) :=
  ⟨by decide, by decide, by decide,
   (hijack_direct_match_amended dbBoth sessPending (some "st") profileLineL1
      googleProfileG1 99 99 3 linkU4line linkU5google userU4 userU5g
      (by decide) (by decide) (by decide) (by decide) (by decide)
      (by decide)).2.1 (by decide),
   by decide, by decide,
   (hijack_direct_match_amended dbMerged sessPending (some "st") profileLineL1
      googleProfileG1 99 99 3 linkU4line linkU6google userU4 userU6
      (by decide) (by decide) (by decide) (by decide) (by decide)
      (by decide)).2.2 (by decide) (by decide),
   (hijack_direct_match_amended dbBoth sessPending (some "st") profileLineL1
      googleProfileG1 99 99 3 linkU4line linkU5google userU4 userU5g
      (by decide) (by decide) (by decide) (by decide) (by decide)
      (by decide)).1⟩

/-! ## Claim C3: one-shot consumption of the pending linking session -/

/-- C3 counterexample: after a successful linking callback (U3 links the
fresh LINE identity l9), the session still carries the state token, so the
identical second callback passes the state check and succeeds as a login
(direct match on the just-inserted link) instead of being rejected as not
pending. -/
theorem consume_replay_counterexample :
    (lineCallback (some "st") profileLineL9 sessPending dbHijack 99).1 =
      .linked 3 ∧
    (lineCallback (some "st") profileLineL9 sessPending dbHijack 99).2.1 =
      { lineState := some "st", linkingUserId := none } ∧
    (lineCallback (some "st") profileLineL9
      (lineCallback (some "st") profileLineL9 sessPending dbHijack 99).2.1
      (lineCallback (some "st") profileLineL9 sessPending dbHijack 99).2.2
      99).1 = .token 3 := by decide

/-- C3 amended: the linking branch deletes `linkingUserId` before the
insert, so the initiating user id is yielded at most once — a second
callback cannot re-enter the linking branch. But the state token
(`lineState`) is *not* cleared on the linking path (the route returns
before the cleanup), so a second identical callback passes the state check
and proceeds as a normal login rather than being rejected as not pending. -/
theorem consume_one_shot_amended (qs : Option String) (lp : LineProfile)
    (sess : SessionState) (db : DB) (fid uid : Nat)
    (hst : stateOk qs sess.lineState = true)
    (hnm : findLink db .line lp.id = none)
    (hpend : sess.linkingUserId = some uid) :
    (lineCallback qs lp sess db fid).2.1.linkingUserId = none ∧
    (lineCallback qs lp sess db fid).2.1.lineState = sess.lineState := by
  have h := line_linking_branch qs lp sess db fid uid hst hnm hpend
  cases hins : insertLink db (lineLinkRow uid lp) with
  | ok db1 =>
    rw [h.1 db1 hins]
    exact ⟨rfl, rfl⟩
  | error e =>
    cases e
    rw [h.2 hins]
    exact ⟨rfl, rfl⟩

/-- Witness for C3's amended theorem at the counterexample input. -/
theorem consume_one_shot_amended_witness :
    stateOk (some "st") sessPending.lineState = true ∧
    findLink dbHijack .line profileLineL9.id = none ∧
    sessPending.linkingUserId = some 3 ∧
    ((lineCallback (some "st") profileLineL9 sessPending dbHijack 99).2.1.linkingUserId
       = none ∧
     (lineCallback (some "st") profileLineL9 sessPending dbHijack 99).2.1.lineState
       = sessPending.lineState) :=
  ⟨by decide, by decide, by decide,
   consume_one_shot_amended (some "st") profileLineL9 sessPending dbHijack
     99 3 (by decide) (by decide) (by decide)⟩

/-! ## Claim C4: re-linking a provider kind the user already has -/

/-- C4 counterexample: U3 is in the linking flow and already owns a LINE
link (subject lA); the callback for a *different* LINE subject lB is not a
no-op — it inserts a second LINE ProviderLink for U3. -/
theorem relink_second_row_counterexample :
    (lineCallback (some "st") profileLineLB sessPending dbRelink 9).1 =
      .linked 3 ∧
    ((lineCallback (some "st") profileLineLB sessPending dbRelink 9).2.2.links.filter
      fun l => l.userId == 3 && l.provider == Provider.line).length = 2 := by
  decide

/-- C4 amended: the no-op success holds only when the profile's subjectId
is the one already linked: then the direct match returns the owner without
creating a row and without error. (With a different subjectId of the same
kind the route inserts a second row of that kind, as the counterexample
shows.) -/
theorem relink_same_subject_amended (qs : Option String) (lp : LineProfile)
    (sess : SessionState) (db : DB) (fid : Nat) (l : LinkRow) (u : UserRow)
    (hst : stateOk qs sess.lineState = true)
    (hl : findLink db .line lp.id = some l)
    (hu : findUserById db l.userId = some u)
    (hown : sess.linkingUserId = some u.id) :
    lineCallback qs lp sess db fid =
      (.token u.id, { lineState := none, linkingUserId := some u.id }, db) := by
  rw [line_direct_match qs lp sess db fid l u hst hl hu, hown]

/-- Witness for C4's amended theorem: U3 re-links the LINE subject lA they
already own. -/
theorem relink_same_subject_amended_witness :
    stateOk (some "st") sessPending.lineState = true ∧
    findLink dbRelink .line "lA" = some linkU3lineA ∧
    sessPending.linkingUserId = some userU3.id ∧
    lineCallback (some "st")
      { id := "lA", displayName := "U3", email := none, pictureUrl := none }
      sessPending dbRelink 9 =
      (.token userU3.id,
       { lineState := none, linkingUserId := some userU3.id }, dbRelink) :=
  ⟨by decide, by decide, by decide,
   relink_same_subject_amended (some "st")
     { id := "lA", displayName := "U3", email := none, pictureUrl := none }
     sessPending dbRelink 9 linkU3lineA userU3
     (by decide) (by decide) (by decide) (by decide)⟩

/-! ## Claim C5: email-fallback match -/

/-- C5 counterexample: U2 exists with email b@x.com; a LINE login for a
fresh subject l7 carrying that very email does *not* attach a link to U2 —
the LINE callback has no email fallback; it attempts the new-user path,
which aborts on the unique email constraint, and the route answers the
error redirect with storage unchanged. -/
theorem line_email_fallback_counterexample :
    lineCallback (some "st") profileLineEmailB sessNoPending dbEmailU2 9 =
      (.errorRedirect, sessNoPending, dbEmailU2) := by decide

/-- C5 amended: the email fallback exists only in the Google verify
callback: with no direct (google, subjectId) link and an existing user
carrying the profile's email, it attaches a new Google link to that user
and returns them (the strategy never consults the linking session, so this
runs whether or not a linking flow is pending). The LINE callback has no
email fallback: in the same situation it heads into the new-user path,
which aborts on the unique email constraint and error-redirects with
storage unchanged. -/
theorem email_fallback_google_amended
    (db : DB) (gp : GoogleProfile) (fid : Nat) (u2 : UserRow)
    (lp : LineProfile) (sess : SessionState) (qs : Option String)
    (fid2 : Nat) (u3 : UserRow)
    (hgnone : findLink db .google gp.id = none)
    (hgem : findUserByEmail db gp.email = some u2)
    (hlnone : findLink db .line lp.id = none)
    (hst : stateOk qs sess.lineState = true)
    (hnp : sess.linkingUserId = none)
    (hmem : u3 ∈ db.users) (hem3 : u3.email = lineEmail lp) :
    googleVerify gp db fid =
      (some u2, { db with links := db.links ++ [googleLinkRow u2.id gp] }) ∧
    lineCallback qs lp sess db fid2 = (.errorRedirect, sess, db) := by
  constructor
  · have hok : insertLink db (googleLinkRow u2.id gp) =
        .ok { db with links := db.links ++ [googleLinkRow u2.id gp] } := by
      apply insertLink_ok
      · intro l2 hl2 hcontra
        exact findLink_none_spec db .google gp.id hgnone l2 hl2
          ⟨by simpa [googleLinkRow] using hcontra.1,
           by simpa [googleLinkRow] using hcontra.2⟩
      · exact ⟨u2, (findUserByEmail_some_spec db gp.email u2 hgem).1,
          by simp [googleLinkRow]⟩
    unfold googleVerify findLinkJoinUser
    simp only [hgnone, hgem]
    simp [hok]
  · apply line_new_user_abort qs lp sess db fid2 hst hlnone hnp
    exact insertUser_error_of_email db (lineUserRow fid2 lp) u3 hmem
      (by simpa [lineUserRow] using hem3)

/-- Witness for C5's amended theorem: Google attaches (google, g2) to U2 by
email; LINE error-redirects for the same email. -/
theorem email_fallback_google_amended_witness :
    findLink dbEmailU2 .google googleProfileG2.id = none ∧
    findUserByEmail dbEmailU2 googleProfileG2.email = some userU2 ∧
    userU2.email = lineEmail profileLineEmailB ∧
    (googleVerify googleProfileG2 dbEmailU2 9 =
      (some userU2,
       { dbEmailU2 with
         links := dbEmailU2.links ++ [googleLinkRow userU2.id googleProfileG2] }) ∧
     lineCallback (some "st") profileLineEmailB sessNoPending dbEmailU2 9 =
      (.errorRedirect, sessNoPending, dbEmailU2)) :=
  ⟨by decide, by decide, by decide,
   email_fallback_google_amended dbEmailU2 googleProfileG2 9 userU2
     profileLineEmailB sessNoPending (some "st") 9 userU2
     (by decide) (by decide) (by decide) (by decide) (by decide)
     (by decide) (by decide)⟩

/-! ## Claim C7: direct match is checked first -/

/-- C7 (confirmed): an existing (providerKind, subjectId) link resolves to
its owning user with the database unchanged, on both routes, and this holds
with no assumption on email matches — the direct match is decided before
any email lookup (the statement quantifies over databases in which any
email-matching user may exist). A repeated resolve therefore returns the
same user with the stored links exactly as before. -/
theorem direct_match_checked_before_email
    (db : DB) (gp : GoogleProfile) (lp : LineProfile) (sess : SessionState)
    (qs : Option String) (fid fid2 : Nat)
    (gl ll : LinkRow) (gu lu : UserRow)
    (hgl : findLink db .google gp.id = some gl)
    (hgu : findUserById db gl.userId = some gu)
    (hll : findLink db .line lp.id = some ll)
    (hlu : findUserById db ll.userId = some lu)
    (hst : stateOk qs sess.lineState = true) :
    googleVerify gp db fid = (some gu, db) ∧
    lineCallback qs lp sess db fid2 =
      (.token lu.id, { sess with lineState := none }, db) :=
  ⟨google_direct_match db gp fid gl gu hgl hgu,
   line_direct_match qs lp sess db fid2 ll lu hst hll hlu⟩

/-- Witness for C7: in `dbHijack`, Google profile g3 resolves to U3 and
LINE profile l1 resolves to U4, both leaving the database unchanged. -/
theorem direct_match_checked_before_email_witness :
    findLink dbHijack .google googleProfileG3.id = some linkU3google ∧
    findLink dbHijack .line profileLineL1.id = some linkU4line ∧
    (googleVerify googleProfileG3 dbHijack 9 = (some userU3, dbHijack) ∧
     lineCallback (some "st") profileLineL1 sessNoPending dbHijack 10 =
      (.token userU4.id, { sessNoPending with lineState := none }, dbHijack)) :=
  ⟨by decide, by decide,
   direct_match_checked_before_email dbHijack googleProfileG3 profileLineL1
     sessNoPending (some "st") 9 10 linkU3google linkU4line userU3 userU4
     (by decide) (by decide) (by decide) (by decide) (by decide)⟩

/-! ## Claim C8: linking-session TTL -/

/-- C8 counterexample: a linking-session entry 600001 ms old — older than
ten minutes — is not treated as absent: the callback still consumes it and
completes the linking. -/
theorem ttl_ten_minutes_counterexample :
    10 * 60 * 1000 < 600001 ∧
    sessionExpired 0 600001 = false ∧
    (lineCallbackAt 0 600001 (some "st") profileLineL9 sessPending dbHijack
      99).1 = .linked 3 := by decide

/-- C8 amended: the only expiry governing the linking state is the session
cookie's 30-day maxAge: a callback after that horizon sees an empty session
and is rejected by the state check with storage untouched, while any
callback strictly before it behaves exactly as with a live session. -/
theorem session_ttl_thirty_days_amended (createdAt now now2 : Nat)
    (qs : Option String) (lp : LineProfile) (sess : SessionState) (db : DB)
    (fid : Nat)
    (hexp : createdAt + sessionMaxAgeMs ≤ now)
    (hlive : now2 < createdAt + sessionMaxAgeMs) :
    (lineCallbackAt createdAt now qs lp sess db fid).1 = .stateMismatch ∧
    (lineCallbackAt createdAt now qs lp sess db fid).2.2 = db ∧
    lineCallbackAt createdAt now2 qs lp sess db fid =
      lineCallback qs lp sess db fid := by
  have he : sessionExpired createdAt now = true := by
    unfold sessionExpired
    exact decide_eq_true hexp
  have hl2 : sessionExpired createdAt now2 = false := by
    unfold sessionExpired
    exact decide_eq_false (Nat.not_le.mpr hlive)
  have hload : loadSession createdAt now sess =
      { lineState := none, linkingUserId := none } := by
    unfold loadSession
    rw [he]
    rfl
  have hload2 : loadSession createdAt now2 sess = sess := by
    unfold loadSession
    rw [hl2]
    rfl
  have hso : stateOk qs (none : Option String) = false := by
    cases qs <;> rfl
  have hsm := line_stateMismatch qs lp
    { lineState := none, linkingUserId := none } db fid hso
  refine ⟨?_, ?_, ?_⟩
  · show (lineCallback qs lp (loadSession createdAt now sess) db fid).1 =
      .stateMismatch
    rw [hload, hsm]
  · show (lineCallback qs lp (loadSession createdAt now sess) db fid).2.2 = db
    rw [hload, hsm]
  · show lineCallback qs lp (loadSession createdAt now2 sess) db fid =
      lineCallback qs lp sess db fid
    rw [hload2]

/-- Witness for C8's amended theorem: rejection exactly at the 30-day
horizon, normal consumption at 600001 ms. -/
theorem session_ttl_thirty_days_amended_witness :
    0 + sessionMaxAgeMs ≤ sessionMaxAgeMs ∧
    600001 < 0 + sessionMaxAgeMs ∧
    ((lineCallbackAt 0 sessionMaxAgeMs (some "st") profileLineL9 sessPending
        dbHijack 99).1 = .stateMismatch ∧
     (lineCallbackAt 0 sessionMaxAgeMs (some "st") profileLineL9 sessPending
        dbHijack 99).2.2 = dbHijack ∧
     lineCallbackAt 0 600001 (some "st") profileLineL9 sessPending dbHijack
        99 =
      lineCallback (some "st") profileLineL9 sessPending dbHijack 99) :=
  ⟨by decide, by decide,
   session_ttl_thirty_days_amended 0 sessionMaxAgeMs 600001 (some "st")
     profileLineL9 sessPending dbHijack 99 (by decide) (by decide)⟩

/-! ## Claim C6: atomicity of the new-user path -/

/-- Statements that only touch categories and prompts leave users and links
unchanged, whatever prefix of them runs. -/
theorem applyPrefix_preserves (fs : List (DB → Except Unit DB)) :
    (∀ f ∈ fs, ∀ d d2 : DB, f d = .ok d2 →
      d2.users = d.users ∧ d2.links = d.links) →
    ∀ (k : Nat) (db : DB),
      (applyPrefix fs k db).users = db.users ∧
      (applyPrefix fs k db).links = db.links := by
  induction fs with
  | nil =>
    intro _ k db
    cases k <;> exact ⟨rfl, rfl⟩
  | cons f rest ih =>
    intro hf k db
    cases k with
    | zero => exact ⟨rfl, rfl⟩
    | succ k =>
      cases hfd : f db with
      | error e => simp [applyPrefix, hfd]
      | ok d2 =>
        have hp := hf f (List.mem_cons_self f rest) db d2 hfd
        have hrest := ih (fun g hg => hf g (List.mem_cons_of_mem f hg)) k d2
        simp only [applyPrefix, hfd]
        exact ⟨hrest.1.trans hp.1, hrest.2.trans hp.2⟩

/-- Each seeding statement touches only categories or prompts. -/
theorem seedSteps_preserve (uid : Nat) :
    ∀ f ∈ seedSteps uid, ∀ d d2 : DB, f d = .ok d2 →
      d2.users = d.users ∧ d2.links = d.links := by
  intro f hf d d2 hok
  unfold seedSteps at hf
  rw [List.mem_append] at hf
  cases hf with
  | inl h =>
    obtain ⟨c, hc, hfc⟩ := List.mem_map.mp h
    subst hfc
    replace hok : insertCategory d uid c = .ok d2 := hok
    unfold insertCategory at hok
    split at hok
    · simp at hok
    · injection hok with h2
      rw [← h2]
      exact ⟨rfl, rfl⟩
  | inr h =>
    rw [List.mem_singleton] at h
    subst h
    replace hok : insertPrompt d uid = .ok d2 := hok
    unfold insertPrompt at hok
    split at hok
    · simp at hok
    · injection hok with h2
      rw [← h2]
      exact ⟨rfl, rfl⟩

/-- C6 counterexample: on the empty database, interrupting the LINE
new-user path right after the `BEGIN..COMMIT` block leaves the user row and
its link observable with *no* seeded categories and no prompt (the full run
seeds 11 categories), so the seeding does not live inside that
transaction. -/
theorem seeding_outside_tx_counterexample :
    (lineNewUserInterrupted profileLineLZ dbEmpty 1 1).users.length = 1 ∧
    (lineNewUserInterrupted profileLineLZ dbEmpty 1 1).links.length = 1 ∧
    (lineNewUserInterrupted profileLineLZ dbEmpty 1 1).categories = [] ∧
    (lineNewUserInterrupted profileLineLZ dbEmpty 1 1).prompts = [] ∧
    (lineCallback (some "st") profileLineLZ sessNoPending dbEmpty
      1).2.2.categories.length = 11 := by decide

/-- C6 amended: the user row and its first ProviderLink are created in one
transaction — at every interruption point the user row is observable
exactly when its link is, never one without the other — but the default
categories and prompt are seeded only after the commit, outside that
transaction (immediately after the committed unit, none of them exist
yet). -/
theorem new_user_atomic_amended (lp : LineProfile) (db : DB) (fid k : Nat)
    (hfu : ∀ u ∈ db.users, u.id ≠ fid)
    (hfl : ∀ l ∈ db.links, l.userId ≠ fid) :
    ((∃ u ∈ (lineNewUserInterrupted lp db fid k).users, u.id = fid) ↔
     (∃ l ∈ (lineNewUserInterrupted lp db fid k).links, l.userId = fid)) ∧
    (lineNewUserInterrupted lp db fid 1).categories = db.categories ∧
    (lineNewUserInterrupted lp db fid 1).prompts = db.prompts := by
  have hbase : ∀ d : DB, (∀ u ∈ d.users, u.id ≠ fid) →
      (∀ l ∈ d.links, l.userId ≠ fid) →
      ((∃ u ∈ d.users, u.id = fid) ↔ (∃ l ∈ d.links, l.userId = fid)) := by
    intro d h1 h2
    constructor
    · rintro ⟨u, hu, he⟩
      exact absurd he (h1 u hu)
    · rintro ⟨l, hl, he⟩
      exact absurd he (h2 l hl)
  refine ⟨?_, ?_, ?_⟩
  · cases k with
    | zero => exact hbase db hfu hfl
    | succ k =>
      cases htx : createUserWithLinkTx db (lineUserRow fid lp)
          (lineLinkRow fid lp) with
      | error e =>
        simp only [lineNewUserInterrupted, htx]
        exact hbase db hfu hfl
      | ok db1 =>
        have hsh := createTx_ok_shape db _ _ db1 htx
        have hpres := applyPrefix_preserves (seedSteps fid)
          (seedSteps_preserve fid) k db1
        simp only [lineNewUserInterrupted, htx]
        have hu : ∃ u ∈ (applyPrefix (seedSteps fid) k db1).users,
            u.id = fid := by
          rw [hpres.1, hsh.1]
          exact ⟨lineUserRow fid lp,
            List.mem_append_right _ (List.mem_singleton_self _), rfl⟩
        have hl : ∃ l ∈ (applyPrefix (seedSteps fid) k db1).links,
            l.userId = fid := by
          rw [hpres.2, hsh.2.1]
          exact ⟨lineLinkRow fid lp,
            List.mem_append_right _ (List.mem_singleton_self _), rfl⟩
        exact iff_of_true hu hl
  · cases htx : createUserWithLinkTx db (lineUserRow fid lp)
        (lineLinkRow fid lp) with
    | error e =>
      simp only [lineNewUserInterrupted, htx]
    | ok db1 =>
      have hsh := createTx_ok_shape db _ _ db1 htx
      simp only [lineNewUserInterrupted, htx]
      exact hsh.2.2.1
  · cases htx : createUserWithLinkTx db (lineUserRow fid lp)
        (lineLinkRow fid lp) with
    | error e =>
      simp only [lineNewUserInterrupted, htx]
    | ok db1 =>
      have hsh := createTx_ok_shape db _ _ db1 htx
      simp only [lineNewUserInterrupted, htx]
      exact hsh.2.2.2

/-- Witness for C6's amended theorem on the empty database. -/
theorem new_user_atomic_amended_witness :
    (∀ u ∈ dbEmpty.users, u.id ≠ 1) ∧
    (∀ l ∈ dbEmpty.links, l.userId ≠ 1) ∧
    (((∃ u ∈ (lineNewUserInterrupted profileLineLZ dbEmpty 1 1).users,
        u.id = 1) ↔
      (∃ l ∈ (lineNewUserInterrupted profileLineLZ dbEmpty 1 1).links,
        l.userId = 1)) ∧
     (lineNewUserInterrupted profileLineLZ dbEmpty 1 1).categories =
       dbEmpty.categories ∧
     (lineNewUserInterrupted profileLineLZ dbEmpty 1 1).prompts =
       dbEmpty.prompts) :=
  ⟨by decide, by decide,
   new_user_atomic_amended profileLineLZ dbEmpty 1 1 (by decide) (by decide)⟩

end JackyTracker
